import Mathlib

/-!
Shallow embedding of the wmctl Wayland client (src/main.rs, src/wayland.rs)
and proofs of the specification claims about it.

The repository code under src/ is a thin client over the smithay client
toolkit: the structures, the output handlers (new_output / update_output /
output_destroyed), the watch loop and the listing function are translated
directly from src/wayland.rs and src/main.rs.  Behaviour that the spec
attributes to the toolkit side (the per-output aggregation state machine,
the info lookup, the bind-version negotiation and the bootstrap roundtrip)
is not present under src/; those definitions are modelled from the spec and
carry a doc comment saying so.
-/

namespace Wmctl

/-- Subpixel layout enumeration, embedding `wl_output::Subpixel`
(variants used by src/wayland.rs: the five named layouts plus the
catch-all handled by the wildcard arm of `subpixel_to_string`). -/
inductive Subpixel where
  | unknown
  | none
  | horizontalRgb
  | horizontalBgr
  | verticalRgb
  | verticalBgr
deriving DecidableEq

/-- One display mode advertised by an output (resolution, refresh rate,
preferred flag), embedding the mode data carried by `OutputInfo.modes`. -/
structure Mode where
  width : Int
  height : Int
  refreshRate : Int
  preferred : Bool
deriving DecidableEq

/-- The per-output information record, embedding the fields of the
toolkit's `OutputInfo` that `DisplayOutput::new` in src/wayland.rs reads
(plus `scaleFactor`, which property events update but the listing ignores,
exactly as the source ignores it). -/
structure OutputInfo where
  model : String
  name : Option String
  description : Option String
  make : String
  location : Int × Int
  subpixel : Subpixel
  physicalSize : Int × Int
  logicalPosition : Option (Int × Int)
  logicalSize : Option (Int × Int)
  scaleFactor : Int
  modes : List Mode
deriving DecidableEq

/-- Modelled from the spec: the default (pre-accumulation) output record —
"Receiving `done` before any fields is legal ... and yields a record with
defaults (empty strings, zeroed geometry)". -/
def defaultInfo : OutputInfo :=
  { model := ""
    name := Option.none
    description := Option.none
    make := ""
    location := (0, 0)
    subpixel := Subpixel.unknown
    physicalSize := (0, 0)
    logicalPosition := Option.none
    logicalSize := Option.none
    scaleFactor := 1
    modes := [] }

/-- Embeds `subpixel_to_string` from src/wayland.rs: the five named
layouts map to their display names, everything else hits the `_` arm. -/
def subpixel_to_string (subpixel : Subpixel) : String :=
  match subpixel with
  | Subpixel.none => "None"
  | Subpixel.horizontalRgb => "Horizontal RGB"
  | Subpixel.horizontalBgr => "Horizontal BGR"
  | Subpixel.verticalRgb => "Vertical RGB"
  | Subpixel.verticalBgr => "Vertical BGR"
  | _ => "Unknown"

/-- Modelled from the spec: the textual summary of one display mode used
by `DisplayOutput::new` via `m.to_string()` (the toolkit's `Display`
implementation is not under src/): "each mode textually summarized:
resolution, refresh rate, preferred flag". -/
def modeToString (m : Mode) : String :=
  toString m.width ++ "x" ++ toString m.height ++ " @ " ++
    toString m.refreshRate ++ " mHz" ++
    (if m.preferred then " (preferred)" else "")

/-- Embeds the `DisplayOutput` struct of src/wayland.rs. -/
structure DisplayOutput where
  model : String
  name : Option String
  description : Option String
  make : String
  location : Int × Int
  subpixel : String
  physicalSize : Int × Int
  logicalPosition : Option (Int × Int)
  logicalSize : Option (Int × Int)
  modes : List String
deriving DecidableEq

/-- Embeds `DisplayOutput::new` from src/wayland.rs: field-by-field copy
of the info record, converting the subpixel enum to a string and each
mode to its textual summary. -/
def DisplayOutput.new (info : OutputInfo) : DisplayOutput :=
  { model := info.model
    name := info.name
    description := info.description
    make := info.make
    location := info.location
    subpixel := subpixel_to_string info.subpixel
    physicalSize := info.physicalSize
    logicalPosition := info.logicalPosition
    logicalSize := info.logicalSize
    modes := info.modes.map modeToString }

/-! ## Output aggregator (per-output state machine)

Modelled from the spec (section 4.5): the aggregation of scattered
property messages into one record per generation lives in the toolkit's
`OutputState`, which is not under src/. -/

/-- A discrete property message for one output (the output-interface
opcodes the spec lists besides `done`: geometry, mode, scale, name,
description). -/
inductive PropEv where
  | geometry (location : Int × Int) (physicalSize : Int × Int)
      (make : String) (model : String) (subpixel : Subpixel)
  | mode (m : Mode)
  | scale (s : Int)
  | name (n : String)
  | description (d : String)
deriving DecidableEq

/-- Modelled from the spec: applying one property message to a partial
record within one pending cycle (property messages are additive within
one cycle). -/
def applyProp (p : OutputInfo) (e : PropEv) : OutputInfo :=
  match e with
  | PropEv.geometry location physicalSize make model subpixel =>
      { p with location := location, physicalSize := physicalSize,
               make := make, model := model, subpixel := subpixel }
  | PropEv.mode m => { p with modes := p.modes ++ [m] }
  | PropEv.scale s => { p with scaleFactor := s }
  | PropEv.name n => { p with name := Option.some n }
  | PropEv.description d => { p with description := Option.some d }

/-- A message addressed to one output: a property message or the `done`
terminator. -/
inductive AggEvent where
  | prop (e : PropEv)
  | done
deriving DecidableEq

/-- Aggregation state of one output: `Pending(partial fields)` or
`Complete(record)`, per spec section 4.5. -/
inductive AggState where
  | pending (p : OutputInfo)
  | complete (r : OutputInfo)
deriving DecidableEq

/-- Modelled from the spec: one transition of the per-output state
machine.  `done` completes the pending record; a property message while
pending is additive; a property message after `done` starts a new
generation from the defaults (the previous complete record is replaced,
never merged); a bare `done` with no new properties leaves the complete
record as it is (no new generation has started). -/
def aggStep (s : AggState) (e : AggEvent) : AggState :=
  match s, e with
  | AggState.pending p, AggEvent.done => AggState.complete p
  | AggState.pending p, AggEvent.prop e => AggState.pending (applyProp p e)
  | AggState.complete _, AggEvent.prop e =>
      AggState.pending (applyProp defaultInfo e)
  | AggState.complete r, AggEvent.done => AggState.complete r

/-- Running the aggregator over a sequence of messages for one output. -/
def aggRun (s : AggState) (evs : List AggEvent) : AggState :=
  evs.foldl aggStep s

theorem aggRun_append (s : AggState) (xs ys : List AggEvent) :
    aggRun s (xs ++ ys) = aggRun (aggRun s xs) ys := by
  simp [aggRun, List.foldl_append]

theorem aggRun_props (p : OutputInfo) (xs : List PropEv) :
    aggRun (AggState.pending p) (xs.map AggEvent.prop)
      = AggState.pending (xs.foldl applyProp p) := by
  induction xs generalizing p with
  | nil => rfl
  | cons x xs ih => simp [aggRun, aggStep] at ih ⊢; exact ih (applyProp p x)

/-- claim C6: generation replacement — if property messages arrive, then
`done`, then at least one more property message, then `done` again, the
final record is built from the defaults and the second batch only; the
first batch does not appear in it (the right-hand side does not mention
`b1`).  The second conjunct is the spec's concrete instance: first batch
sets name "eDP-1", second batch sets only a scale, so the final record's
name is absent. -/
theorem claim6_generation_replacement (b1 : List PropEv) (e : PropEv)
    (b2 : List PropEv) :
    aggRun (AggState.pending defaultInfo)
        (b1.map AggEvent.prop ++ [AggEvent.done]
          ++ (e :: b2).map AggEvent.prop ++ [AggEvent.done])
      = AggState.complete ((e :: b2).foldl applyProp defaultInfo)
    ∧ aggRun (AggState.pending defaultInfo)
        [AggEvent.prop (PropEv.name "eDP-1"), AggEvent.done,
         AggEvent.prop (PropEv.scale 2), AggEvent.done]
      = AggState.complete { defaultInfo with scaleFactor := 2 } := by
  constructor
  · rw [aggRun_append, aggRun_append, aggRun_append]
    rw [aggRun_props]
    show aggRun (aggRun (AggState.complete _) ((e :: b2).map AggEvent.prop))
        [AggEvent.done] = _
    have h : aggRun (AggState.complete (b1.foldl applyProp defaultInfo))
        ((e :: b2).map AggEvent.prop)
        = AggState.pending (b2.foldl applyProp (applyProp defaultInfo e)) := by
      show aggRun (aggStep (AggState.complete _) (AggEvent.prop e))
          (b2.map AggEvent.prop) = _
      rw [show aggStep (AggState.complete (b1.foldl applyProp defaultInfo))
            (AggEvent.prop e) = AggState.pending (applyProp defaultInfo e) from rfl]
      exact aggRun_props _ b2
    rw [h]
    rfl
  · decide

/-- claim C10: `subpixel_to_string` is total (a Lean function) and maps
every subpixel value into the six display strings; each of the five named
layouts maps to its display name and the remaining variant maps to
"Unknown". -/
theorem claim10_subpixel_total :
    (∀ s : Subpixel, subpixel_to_string s ∈
      ["None", "Horizontal RGB", "Horizontal BGR", "Vertical RGB",
       "Vertical BGR", "Unknown"])
    ∧ subpixel_to_string Subpixel.none = "None"
    ∧ subpixel_to_string Subpixel.horizontalRgb = "Horizontal RGB"
    ∧ subpixel_to_string Subpixel.horizontalBgr = "Horizontal BGR"
    ∧ subpixel_to_string Subpixel.verticalRgb = "Vertical RGB"
    ∧ subpixel_to_string Subpixel.verticalBgr = "Vertical BGR"
    ∧ subpixel_to_string Subpixel.unknown = "Unknown" := by
  refine ⟨fun s => ?_, rfl, rfl, rfl, rfl, rfl, rfl⟩
  cases s <;> simp [subpixel_to_string]

/-! ## Watch loop (src/wayland.rs, `watch_for_output_changes` and the
`OutputHandler` implementation) -/

/-- A lifecycle event delivered to the `OutputHandler` callbacks of
`WaylandClient` (src/wayland.rs lines 113-137), tagged with the output it
concerns (the handlers ignore which output it is). -/
inductive OutputEvent where
  | newOutput (id : Nat)
  | updateOutput (id : Nat)
  | outputDestroyed (id : Nat)
deriving DecidableEq

/-- Whether an event is a structural change (output added or removed). -/
def OutputEvent.isStructural : OutputEvent → Bool
  | OutputEvent.newOutput _ => true
  | OutputEvent.updateOutput _ => false
  | OutputEvent.outputDestroyed _ => true

/-- Embeds the three handlers of `impl OutputHandler for WaylandClient`:
`new_output` and `output_destroyed` set `self.output_changed = true`,
`update_output` has an empty body and leaves it untouched. -/
def handleOutputEvent (outputChanged : Bool) (e : OutputEvent) : Bool :=
  match e with
  | OutputEvent.newOutput _ => true
  | OutputEvent.updateOutput _ => outputChanged
  | OutputEvent.outputDestroyed _ => true

/-- The `output_changed` flag after `n` calls to `blocking_dispatch`,
where the `i`-th call delivers the batch `stream i` of events to the
handlers.  `flagAfter stream 0 = false` embeds the reset
`self.output_changed = false` at the top of `watch_for_output_changes`. -/
def flagAfter (stream : Nat → List OutputEvent) : Nat → Bool
  | 0 => false
  | n + 1 => (stream n).foldl handleOutputEvent (flagAfter stream n)

/-- Embeds the `loop` of `watch_for_output_changes`: at iteration `n` the
flag is checked; if set the loop breaks (returning how many dispatches
ran), otherwise `blocking_dispatch` delivers one more batch.  `fuel`
bounds the recursion; `Option.none` means the loop has not returned
within `fuel` iterations. -/
def watchLoop (stream : Nat → List OutputEvent) : Nat → Nat → Option Nat
  | 0, _ => Option.none
  | fuel + 1, n =>
      if flagAfter stream n then Option.some n
      else watchLoop stream fuel (n + 1)

theorem handleOutputEvent_eq (b : Bool) (e : OutputEvent) :
    handleOutputEvent b e = (b || e.isStructural) := by
  cases e <;> simp [handleOutputEvent, OutputEvent.isStructural]

theorem foldl_handleOutputEvent (evs : List OutputEvent) (b : Bool) :
    evs.foldl handleOutputEvent b = (b || evs.any OutputEvent.isStructural) := by
  induction evs generalizing b with
  | nil => simp
  | cons e evs ih => simp [List.foldl_cons, handleOutputEvent_eq, ih, Bool.or_assoc]

theorem flagAfter_eq (stream : Nat → List OutputEvent) (n : Nat) :
    flagAfter stream n
      = (List.range n).any (fun i => (stream i).any OutputEvent.isStructural) := by
  induction n with
  | zero => rfl
  | succ n ih =>
      rw [flagAfter, foldl_handleOutputEvent, ih, List.range_succ]
      simp

theorem watchLoop_none (stream : Nat → List OutputEvent) :
    ∀ fuel n₀, watchLoop stream fuel n₀ = Option.none →
      ∀ j, n₀ ≤ j → j < n₀ + fuel → flagAfter stream j = false := by
  intro fuel
  induction fuel with
  | zero => intro n₀ _ j _ hlt; omega
  | succ fuel ih =>
      intro n₀ h j hj hlt
      rw [watchLoop] at h
      by_cases hf : flagAfter stream n₀ = true
      · simp [hf] at h
      · rcases Nat.eq_or_lt_of_le hj with rfl | hjlt
        · simpa using hf
        · simp [Bool.not_eq_true] at hf
          rw [if_neg (by simp [hf])] at h
          exact ih (n₀ + 1) h j hjlt (by omega)

theorem watchLoop_some (stream : Nat → List OutputEvent) :
    ∀ fuel n₀ n, watchLoop stream fuel n₀ = Option.some n →
      flagAfter stream n = true := by
  intro fuel
  induction fuel with
  | zero => intro n₀ n h; simp [watchLoop] at h
  | succ fuel ih =>
      intro n₀ n h
      rw [watchLoop] at h
      by_cases hf : flagAfter stream n₀ = true
      · rw [if_pos hf] at h
        cases h
        exact hf
      · rw [if_neg hf] at h
        exact ih (n₀ + 1) n h

/-- claim C1: the watch loop returns if and only if some dispatched event
is an output addition or removal — property-only updates
(`update_output`) never make it return. -/
theorem claim1_watch_returns_iff_structural (stream : Nat → List OutputEvent) :
    (∃ fuel n, watchLoop stream fuel 0 = Option.some n)
      ↔ (∃ i, (stream i).any OutputEvent.isStructural = true) := by
  constructor
  · rintro ⟨fuel, n, h⟩
    have hf := watchLoop_some stream fuel 0 n h
    rw [flagAfter_eq] at hf
    rcases List.any_eq_true.mp hf with ⟨i, _, hi⟩
    exact ⟨i, hi⟩
  · rintro ⟨i, hi⟩
    have hf : flagAfter stream (i + 1) = true := by
      rw [flagAfter_eq]
      exact List.any_eq_true.mpr ⟨i, by simp, hi⟩
    rcases ho : watchLoop stream (i + 2) 0 with _ | n
    · exact absurd (watchLoop_none stream (i + 2) 0 ho (i + 1) (by omega) (by omega))
        (by simp [hf])
    · exact ⟨i + 2, n, ho⟩

/-- claim C3: the watch algorithm — the flag is cleared first
(`flagAfter stream 0 = false`); whenever the loop returns the flag is
set; and if no dispatched batch ever contains a structural change the
loop never returns, from any iteration on, for any amount of fuel (no
timeout, no partial result). -/
theorem claim3_watch_algorithm (stream : Nat → List OutputEvent) :
    flagAfter stream 0 = false
    ∧ (∀ fuel n, watchLoop stream fuel 0 = Option.some n →
        flagAfter stream n = true)
    ∧ ((∀ i, (stream i).any OutputEvent.isStructural = false) →
        ∀ fuel n₀, watchLoop stream fuel n₀ = Option.none) := by
  refine ⟨rfl, fun fuel n h => watchLoop_some stream fuel 0 n h, fun hno fuel => ?_⟩
  induction fuel with
  | zero => intro n₀; rfl
  | succ fuel ih =>
      intro n₀
      have hf : flagAfter stream n₀ = false := by
        rw [flagAfter_eq]
        simp [hno]
      rw [watchLoop, if_neg (by simp [hf])]
      exact ih (n₀ + 1)

/-- A stream whose every event is a property-only update. -/
def updateOnlyStream : Nat → List OutputEvent :=
  fun i => [OutputEvent.updateOutput i]

/-- A stream whose first batch announces a new output. -/
def newOutputStream : Nat → List OutputEvent :=
  fun _ => [OutputEvent.newOutput 0]

/-- Witness for claim C1: on a concrete stream containing a structural
event the loop does return. -/
theorem claim1_watch_returns_iff_structural_witness :
    ∃ fuel n, watchLoop newOutputStream fuel 0 = Option.some n :=
  (claim1_watch_returns_iff_structural newOutputStream).mpr
    ⟨0, by decide⟩

/-- Witness for claim C3: at concrete streams, the flag starts cleared,
a concrete returning run has the flag set, and a property-only stream
never returns within 5 iterations. -/
theorem claim3_watch_algorithm_witness :
    flagAfter updateOnlyStream 0 = false
    ∧ flagAfter newOutputStream 1 = true
    ∧ watchLoop updateOnlyStream 5 0 = Option.none := by
  refine ⟨(claim3_watch_algorithm updateOnlyStream).1,
    (claim3_watch_algorithm newOutputStream).2.1 2 1 (by decide),
    (claim3_watch_algorithm updateOnlyStream).2.2 (fun i => by
      simp [updateOnlyStream, OutputEvent.isStructural]) 5 0⟩

/-! ## Output listing (src/wayland.rs, `list_outputs`) -/

/-- Modelled from the spec: the info lookup `self.output_state.info(&output)`
(toolkit code, not under src/) — an output whose aggregation is still
Pending has no retrievable description, a Complete one yields its
record. -/
def infoOf : AggState → Option OutputInfo
  | AggState.pending _ => Option.none
  | AggState.complete r => Option.some r

/-- Result of the record-collection pass of `list_outputs`: the surfaced
records in enumeration order, and the ids of the outputs that were warned
about and skipped. -/
structure ListingResult where
  records : List DisplayOutput
  warnings : List Nat
deriving DecidableEq

/-- Embeds the `filter_map` pass of `list_outputs` (src/wayland.rs lines
62-69) over the output set in enumeration order: an output with info
becomes a `DisplayOutput`, one without is skipped with a warning. -/
def listOutputsRecords : List (Nat × AggState) → ListingResult
  | [] => { records := [], warnings := [] }
  | o :: rest =>
      let acc := listOutputsRecords rest
      match infoOf o.2 with
      | Option.some info =>
          { acc with records := DisplayOutput.new info :: acc.records }
      | Option.none =>
          { acc with warnings := o.1 :: acc.warnings }

/-- claim C2: the listing never surfaces a partially-accumulated output —
every surfaced record comes from a Complete entry, and every Pending (no
retrievable info) entry is excluded with a warning emitted for it. -/
theorem claim2_no_partial_output (outputs : List (Nat × AggState)) :
    (∀ r, r ∈ (listOutputsRecords outputs).records →
      ∃ id rec, (id, AggState.complete rec) ∈ outputs ∧ r = DisplayOutput.new rec)
    ∧ (∀ id p, (id, AggState.pending p) ∈ outputs →
        id ∈ (listOutputsRecords outputs).warnings) := by
  induction outputs with
  | nil => exact ⟨fun r hr => absurd hr (by simp [listOutputsRecords]),
      fun id p h => absurd h (by simp)⟩
  | cons o rest ih =>
      rcases o with ⟨oid, ost⟩
      constructor
      · intro r hr
        cases ost with
        | pending p =>
            simp only [listOutputsRecords, infoOf] at hr
            rcases ih.1 r hr with ⟨id, rec, hmem, hrec⟩
            exact ⟨id, rec, List.mem_cons_of_mem _ hmem, hrec⟩
        | complete rec0 =>
            simp only [listOutputsRecords, infoOf, List.mem_cons] at hr
            rcases hr with hr | hr
            · exact ⟨oid, rec0, List.mem_cons_self _ _, hr⟩
            · rcases ih.1 r hr with ⟨id, rec, hmem, hrec⟩
              exact ⟨id, rec, List.mem_cons_of_mem _ hmem, hrec⟩
      · intro id p hmem
        rcases List.mem_cons.mp hmem with heq | hmem
        · cases heq
          simp [listOutputsRecords, infoOf]
        · have := ih.2 id p hmem
          cases ost <;> simp [listOutputsRecords, infoOf, this]

/-- Concrete output set: output 1 complete, output 2 still pending. -/
def sampleOutputs : List (Nat × AggState) :=
  [(1, AggState.complete defaultInfo), (2, AggState.pending defaultInfo)]

/-- Witness for claim C2: on the concrete output set, the surfaced record
comes from the complete entry and the pending output 2 is warned about. -/
theorem claim2_no_partial_output_witness :
    (∃ id rec, (id, AggState.complete rec) ∈ sampleOutputs
      ∧ DisplayOutput.new defaultInfo = DisplayOutput.new rec)
    ∧ 2 ∈ (listOutputsRecords sampleOutputs).warnings :=
  ⟨(claim2_no_partial_output sampleOutputs).1 (DisplayOutput.new defaultInfo)
      (by decide),
    (claim2_no_partial_output sampleOutputs).2 2 defaultInfo (by decide)⟩

/-! ## JSON serialization (the `serde_json::to_string(...).unwrap()` call
of `list_outputs`)

serde serialization of a value is fallible in general, so each field
serializer below returns `Except`; the claim is that for the field types
of `DisplayOutput` every serializer in fact returns `Except.ok`. -/

/-- One hexadecimal digit. -/
def hexDigit (n : Nat) : Char :=
  if n < 10 then Char.ofNat (48 + n) else Char.ofNat (87 + n)

/-- JSON escaping of one character, as serde_json does for strings:
quote and backslash get a backslash escape, control characters get the
short escapes or a unicode escape, everything else passes through. -/
def jsonEscapeChar (c : Char) : List Char :=
  if c = '"' then [ '\\', '"' ]
  else if c = '\\' then [ '\\', '\\' ]
  else if c = Char.ofNat 8 then [ '\\', 'b' ]
  else if c = Char.ofNat 9 then [ '\\', 't' ]
  else if c = Char.ofNat 10 then [ '\\', 'n' ]
  else if c = Char.ofNat 12 then [ '\\', 'f' ]
  else if c = Char.ofNat 13 then [ '\\', 'r' ]
  else if c.toNat < 32 then
    [ '\\', 'u', '0', '0', hexDigit (c.toNat / 16), hexDigit (c.toNat % 16) ]
  else [c]

/-- A JSON string literal for an arbitrary string (total: escaping never
fails). -/
def jsonString (s : String) : String :=
  "\"" ++ String.mk (s.data.flatMap jsonEscapeChar) ++ "\""

/-- Serializer for a `String` field: infallible. -/
def serString (s : String) : Except String String :=
  Except.ok (jsonString s)

/-- Serializer for an `Option String` field: `null` or the string. -/
def serOptString : Option String → Except String String
  | Option.none => Except.ok "null"
  | Option.some s => serString s

/-- Serializer for an `(i32, i32)` field: a two-element array. -/
def serIntPair (p : Int × Int) : Except String String :=
  Except.ok ("[" ++ toString p.1 ++ "," ++ toString p.2 ++ "]")

/-- Serializer for an `Option (i32, i32)` field. -/
def serOptIntPair : Option (Int × Int) → Except String String
  | Option.none => Except.ok "null"
  | Option.some p => serIntPair p

/-- Serializer for a `Vec<String>` field. -/
def serStringList (xs : List String) : Except String String :=
  Except.ok ("[" ++ String.intercalate "," (xs.map jsonString) ++ "]")

/-- Embeds the derived `serde::Serialize` implementation of
`DisplayOutput`: an object with the ten fields in declaration order, each
serialized by the serializer for its type. -/
def serializeDisplayOutput (d : DisplayOutput) : Except String String := do
  let model ← serString d.model
  let name ← serOptString d.name
  let description ← serOptString d.description
  let make ← serString d.make
  let location ← serIntPair d.location
  let subpixel ← serString d.subpixel
  let physicalSize ← serIntPair d.physicalSize
  let logicalPosition ← serOptIntPair d.logicalPosition
  let logicalSize ← serOptIntPair d.logicalSize
  let modes ← serStringList d.modes
  Except.ok ("\x7b\"model\":" ++ model
    ++ ",\"name\":" ++ name
    ++ ",\"description\":" ++ description
    ++ ",\"make\":" ++ make
    ++ ",\"location\":" ++ location
    ++ ",\"subpixel\":" ++ subpixel
    ++ ",\"physical_size\":" ++ physicalSize
    ++ ",\"logical_position\":" ++ logicalPosition
    ++ ",\"logical_size\":" ++ logicalSize
    ++ ",\"modes\":" ++ modes
    ++ "\x7d")

/-- Embeds `serde_json::to_string` on the collected
`Vec<DisplayOutput>`: the JSON array of the serialized records. -/
def serializeOutputs (ds : List DisplayOutput) : Except String String := do
  let parts ← ds.mapM serializeDisplayOutput
  Except.ok ("[" ++ String.intercalate "," parts ++ "]")

/-- The (infallible) string each record serializes to. -/
def displayOutputJson (d : DisplayOutput) : String :=
  "\x7b\"model\":" ++ jsonString d.model
    ++ ",\"name\":" ++ (match d.name with
        | Option.none => "null" | Option.some s => jsonString s)
    ++ ",\"description\":" ++ (match d.description with
        | Option.none => "null" | Option.some s => jsonString s)
    ++ ",\"make\":" ++ jsonString d.make
    ++ ",\"location\":" ++ ("[" ++ toString d.location.1 ++ ","
        ++ toString d.location.2 ++ "]")
    ++ ",\"subpixel\":" ++ jsonString d.subpixel
    ++ ",\"physical_size\":" ++ ("[" ++ toString d.physicalSize.1 ++ ","
        ++ toString d.physicalSize.2 ++ "]")
    ++ ",\"logical_position\":" ++ (match d.logicalPosition with
        | Option.none => "null"
        | Option.some p => "[" ++ toString p.1 ++ "," ++ toString p.2 ++ "]")
    ++ ",\"logical_size\":" ++ (match d.logicalSize with
        | Option.none => "null"
        | Option.some p => "[" ++ toString p.1 ++ "," ++ toString p.2 ++ "]")
    ++ ",\"modes\":" ++ ("[" ++ String.intercalate ","
        (d.modes.map jsonString) ++ "]")
    ++ "\x7d"

theorem serializeDisplayOutput_ok (d : DisplayOutput) :
    serializeDisplayOutput d = Except.ok (displayOutputJson d) := by
  cases d with
  | mk model name description make location subpixel physicalSize
      logicalPosition logicalSize modes =>
      cases name <;> cases description <;> cases logicalPosition <;>
        cases logicalSize <;> rfl

theorem mapM_serializeDisplayOutput (ds : List DisplayOutput) :
    ds.mapM serializeDisplayOutput = Except.ok (ds.map displayOutputJson) := by
  induction ds with
  | nil => rfl
  | cons d ds ih =>
      rw [List.mapM_cons, serializeDisplayOutput_ok, ih, List.map_cons]
      rfl

/-- claim C9: the `unwrap` on the JSON serialization in `list_outputs`
never panics — serializing any vector of `DisplayOutput` records
succeeds, because every field serializer is infallible. -/
theorem claim9_json_never_panics (ds : List DisplayOutput) :
    serializeOutputs ds
      = Except.ok ("[" ++ String.intercalate ","
          (ds.map displayOutputJson) ++ "]") := by
  show Except.bind (ds.mapM serializeDisplayOutput) _ = _
  rw [mapM_serializeDisplayOutput]
  rfl

/-! ## Printed listing and idempotence (src/wayland.rs `list_outputs` and
the `Display` implementation for `DisplayOutput`) -/

/-- Modelled from the spec scope: the `{:?}` (Debug) formatting used for
the subpixel string in the `Display` implementation (Rust standard
library behaviour, not under src/): quotes around the string, with quote
and backslash escaped. -/
def debugQuote (s : String) : String :=
  "\"" ++ String.mk (s.data.flatMap fun c =>
    if c = '"' then [ '\\', '"' ]
    else if c = '\\' then [ '\\', '\\' ]
    else [c]) ++ "\""

/-- Embeds `impl Display for DisplayOutput` (src/wayland.rs lines
220-254): the lines written for one record, in order, with the optional
lines present only when the field is set. -/
def displayOutputLines (d : DisplayOutput) : List String :=
  [d.model]
  ++ (match d.name with
      | Option.some n => ["\tname: " ++ n]
      | Option.none => [])
  ++ (match d.description with
      | Option.some de => ["\tdescription: " ++ de]
      | Option.none => [])
  ++ ["\tmake: " ++ d.make]
  ++ ["\tx: " ++ toString d.location.1 ++ ", y: " ++ toString d.location.2]
  ++ ["\tsubpixel: " ++ debugQuote d.subpixel]
  ++ ["\tphysical_size: " ++ toString d.physicalSize.1 ++ "×"
      ++ toString d.physicalSize.2 ++ "mm"]
  ++ (match d.logicalPosition with
      | Option.some p => ["\tlogical x: " ++ toString p.1 ++ ", y: "
          ++ toString p.2]
      | Option.none => [])
  ++ (match d.logicalSize with
      | Option.some p => ["\tlogical width: " ++ toString p.1
          ++ ", height: " ++ toString p.2]
      | Option.none => [])
  ++ ["\tmodes:"]
  ++ d.modes.map (fun m => "\t\t" ++ m)

/-- Embeds the printing of `list_outputs(short, json)`: the lines printed
to stdout — the JSON array on one line, or the model names, or the full
human-readable records, over the records collected by the filter pass. -/
def listOutputsPrinted (outputs : List (Nat × AggState))
    (short json : Bool) : List String :=
  let recs := (listOutputsRecords outputs).records
  if json then
    match serializeOutputs recs with
    | Except.ok s => [s]
    | Except.error e => [e]
  else if short then recs.map (fun r => r.model)
  else recs.flatMap displayOutputLines

/-- One call of `list_outputs`: the method takes `&self`, so the call
returns its printed output together with the client's output set, which
it cannot mutate. -/
def listOutputsCall (outputs : List (Nat × AggState)) (short json : Bool) :
    List String × List (Nat × AggState) :=
  (listOutputsPrinted outputs short json, outputs)

/-- claim C7: listing is idempotent — two successive calls of
`list_outputs` with no dispatch in between print bit-identical results
(and the first call leaves the output set untouched, which is why). -/
theorem claim7_listing_idempotent (outputs : List (Nat × AggState))
    (short json : Bool) :
    (listOutputsCall outputs short json).2 = outputs
    ∧ (listOutputsCall ((listOutputsCall outputs short json).2) short json).1
      = (listOutputsCall outputs short json).1 :=
  ⟨rfl, rfl⟩

/-! ## Global binding version negotiation -/

/-- Modelled from the spec: the version negotiation performed when the
toolkit binds an output global (inside `OutputState::new` and the
registry machinery, not under src/) — "the implementation must clamp to
min(requested, advertised)"; the bind itself succeeds, the situation is
"recovered locally by clamping to the advertised version, not fatal". -/
def bindGlobal (requested advertised : Nat) : Except String Nat :=
  Except.ok (min requested advertised)

/-- claim C4: binding with a requested version above the advertised one
succeeds at the advertised version, with no error. -/
theorem claim4_version_clamping (requested advertised : Nat)
    (h : advertised < requested) :
    bindGlobal requested advertised = Except.ok advertised := by
  unfold bindGlobal
  rw [min_eq_right (Nat.le_of_lt h)]

/-- Witness for claim C4: requesting version 5 against advertised
version 3 yields a bound object at version 3. -/
theorem claim4_version_clamping_witness :
    bindGlobal 5 3 = Except.ok 3 :=
  claim4_version_clamping 5 3 (by decide)

/-! ## Connection bootstrap (src/wayland.rs, `WaylandClient::new`) -/

/-- The client state assembled by `WaylandClient::new`: the output set
held by the output delegate, and the `output_changed` flag (initialized
to `false` at construction, src/wayland.rs line 48). -/
structure ClientState where
  outputs : List (Nat × AggState)
  outputChanged : Bool
deriving DecidableEq

/-- A server message queued at bootstrap: the announcement of an output
global, or a message addressed to an already-known output. -/
inductive ServerEv where
  | globalOutput (id : Nat)
  | outputMsg (id : Nat) (e : AggEvent)
deriving DecidableEq

/-- Modelled from the spec: processing one queued server message during
dispatch — an announced output global is bound and enters the output set
as Pending, and a message for a known output steps its aggregation state
machine. -/
def processServerEv (c : ClientState) (ev : ServerEv) : ClientState :=
  match ev with
  | ServerEv.globalOutput id =>
      { c with outputs := c.outputs ++ [(id, AggState.pending defaultInfo)] }
  | ServerEv.outputMsg id e =>
      { c with outputs := c.outputs.map fun o =>
          if o.1 = id then (o.1, aggStep o.2 e) else o }

/-- Modelled from the spec: `event_queue.roundtrip(...)` — "the client
sends a marker request and blocks until the server's corresponding
acknowledgment is dispatched, guaranteeing all previously queued server
messages have been delivered": every queued message is processed and the
queue is left empty. -/
def roundtripDrain (c : ClientState) (queue : List ServerEv) :
    ClientState × List ServerEv :=
  (queue.foldl processServerEv c, [])

/-- The ordered steps `WaylandClient::new` performs (src/wayland.rs lines
28-57): connect, initialize the registry queue, bind the output globals
(`OutputState::new`), then one roundtrip before returning. -/
inductive BootstrapStep where
  | connect
  | registryInit
  | bindOutputGlobals
  | roundtrip
deriving DecidableEq

/-- The bootstrap step sequence of `WaylandClient::new`, in source
order. -/
def newSteps : List BootstrapStep :=
  [BootstrapStep.connect, BootstrapStep.registryInit,
   BootstrapStep.bindOutputGlobals, BootstrapStep.roundtrip]

/-- The startup error taxonomy relevant to src/: connection failure. -/
inductive ConnectionError where
  | connectionFailed
deriving DecidableEq

/-- Embeds `WaylandClient::new`: `Connection::connect_to_env()?` fails
when no compositor endpoint is reachable (`connectOk = false`),
propagating the error; otherwise the client starts with an empty output
set and a cleared flag, and the constructor runs one roundtrip over the
queued server messages before returning the client and the (drained)
event queue. -/
def newClient (connectOk : Bool) (queue : List ServerEv) :
    Except ConnectionError (ClientState × List ServerEv) :=
  if connectOk then
    Except.ok (roundtripDrain { outputs := [], outputChanged := false } queue)
  else
    Except.error ConnectionError.connectionFailed

/-- claim C5: bootstrap performs one full roundtrip after the bind and
before returning — the roundtrip is the last bootstrap step after
binding, and on success the returned client has processed every
initially-queued server message, with nothing left pending in the queue,
so callers see the complete set of initially-announced globals. -/
theorem claim5_bootstrap_roundtrip (queue : List ServerEv) :
    newClient true queue
      = Except.ok
          (queue.foldl processServerEv { outputs := [], outputChanged := false },
           [])
    ∧ newSteps.getLast? = Option.some BootstrapStep.roundtrip
    ∧ newSteps = [BootstrapStep.connect, BootstrapStep.registryInit,
        BootstrapStep.bindOutputGlobals, BootstrapStep.roundtrip] :=
  ⟨rfl, rfl, rfl⟩

/-! ## CLI entry point (src/main.rs) -/

/-- The CLI subcommands of src/main.rs. -/
inductive CliCommand where
  | listOutputs (short json : Bool)
  | watchForOutputChanges
deriving DecidableEq

/-- A core operation attempted on a constructed client. -/
inductive Op where
  | listOutputsOp
  | watchOp
deriving DecidableEq

/-- How the process ends: a normal exit with a code, a panic (nonzero
abort, as `unwrap` produces), or still blocked inside the watch loop. -/
inductive ProcessResult where
  | exited (code : Nat)
  | panicked
  | blocked
deriving DecidableEq

/-- Whether the process terminated with a nonzero status. -/
def ProcessResult.isFailure : ProcessResult → Bool
  | ProcessResult.exited code => code ≠ 0
  | ProcessResult.panicked => true
  | ProcessResult.blocked => false

/-- Embeds `main` (src/main.rs lines 41-50): construct the client with
`WaylandClient::new().unwrap()` — a construction error panics at once —
then run the selected operation.  The result pairs the process outcome
with the operations attempted on the client; `stream` and `fuel` feed the
watch loop as in `watchLoop`. -/
def mainRun (cmd : CliCommand) (connectOk : Bool) (queue : List ServerEv)
    (stream : Nat → List OutputEvent) (fuel : Nat) :
    ProcessResult × List Op :=
  match newClient connectOk queue with
  | Except.error _ => (ProcessResult.panicked, [])
  | Except.ok _ =>
      match cmd with
      | CliCommand.listOutputs _ _ => (ProcessResult.exited 0, [Op.listOutputsOp])
      | CliCommand.watchForOutputChanges =>
          match watchLoop stream fuel 0 with
          | Option.some _ => (ProcessResult.exited 0, [Op.watchOp])
          | Option.none => (ProcessResult.blocked, [Op.watchOp])

/-- claim C8: a connection failure at startup is fatal with no retry —
for every subcommand the construction error propagates, the process
panics (a nonzero termination), and no operation is attempted on the
failed client. -/
theorem claim8_connection_failure_fatal (cmd : CliCommand)
    (queue : List ServerEv) (stream : Nat → List OutputEvent) (fuel : Nat) :
    mainRun cmd false queue stream fuel = (ProcessResult.panicked, [])
    ∧ ProcessResult.panicked.isFailure = true
    ∧ newClient false queue = Except.error ConnectionError.connectionFailed := by
  refine ⟨?_, rfl, rfl⟩
  cases cmd <;> rfl

end Wmctl
